import Mathlib

/-!
Shallow embedding of `src/app.py` (a small Flask storefront browser).

The network is modelled as an oracle environment `Env`: the Steam details
endpoint, the Steam featured-categories endpoint, and the raw HTML returned
by a YouTube results page are inputs, everything downstream of them is
translated from the Python source.  Python truthiness (`or` chains,
`if not x`) is modelled explicitly on `Option String` / `Option Int`
(`None` and empty string / zero are falsy).  A Python exception escaping a
handler is the `raised` outcome; `try/except` blocks that swallow
exceptions are rendered as the `none` / `[]` results the source returns.
-/

namespace App

/-- Python truthiness of an optional string: `None` and `""` are falsy. -/
def pyTruthyS : Option String → Bool
  | none => false
  | some s => s != ""

/-- Python truthiness of an optional integer: `None` and `0` are falsy. -/
def pyTruthyI : Option Int → Bool
  | none => false
  | some n => n != 0

/-- Python `a or b` on optional strings: returns `a` when truthy, else `b`. -/
def pyOrS (a b : Option String) : Option String :=
  if pyTruthyS a then a else b

/-- Python `a or b` on optional integers: returns `a` when truthy, else `b`. -/
def pyOrI (a b : Option Int) : Option Int :=
  if pyTruthyI a then a else b

/-- Python `f"{x}"` on a possibly-`None` value. -/
def pyStr : Option String → String
  | none => "None"
  | some s => s

/-- ASCII whitespace, as stripped by Python `str.strip()`. -/
def isSpaceChar (c : Char) : Bool :=
  c == ' ' || c == '\t' || c == '\n' || c == '\r' || c == '\x0b' || c == '\x0c'

/-- Model of Python `str.strip()`: drop leading and trailing whitespace. -/
def pyStrip (s : String) : String :=
  ⟨((s.data.dropWhile isSpaceChar).reverse.dropWhile isSpaceChar).reverse⟩

/-- Decimal digit value of a character, when it is a digit. -/
def digitVal (c : Char) : Option Nat :=
  if '0' ≤ c ∧ c ≤ '9' then some (c.toNat - '0'.toNat) else none

/-- Accumulate a decimal numeral; `none` on any non-digit. -/
def natOfDigits : List Char → Nat → Option Nat
  | [], acc => some acc
  | c :: cs, acc =>
    match digitVal c with
    | some dgt => natOfDigits cs (acc * 10 + dgt)
    | none => none

/-- Signed decimal numeral over a non-empty character list. -/
def intOfChars : List Char → Option Int
  | [] => none
  | '-' :: cs =>
    if cs = [] then none else (natOfDigits cs 0).map (fun n => -(n : Int))
  | '+' :: cs =>
    if cs = [] then none else (natOfDigits cs 0).map (fun n => (n : Int))
  | cs => (natOfDigits cs 0).map (fun n => (n : Int))

/-- Model of Python `int(s)` on a string: strips whitespace, parses an
optionally signed decimal numeral; `none` when the parse raises
`ValueError` (e.g. `int("abc")`). -/
def pyInt (s : String) : Option Int :=
  intOfChars (pyStrip s).data

/-- Result of a route handler body: either a normal value or an uncaught
Python exception propagating to the framework (HTTP 500). -/
inductive PyResult (α : Type) where
  | ok (a : α)
  | raised
  deriving DecidableEq, Repr

/-! ## JSON shapes of the Steam details response (`get_steam_game`) -/

/-- A `webm`/`mp4` media dict inside a movie entry: keys `"max"` and `"480"`. -/
structure MediaFmt where
  maxUrl : Option String
  url480 : Option String
  deriving DecidableEq, Repr

/-- One entry of the `movies` list of the details payload. -/
structure Movie where
  webm : Option MediaFmt
  mp4 : Option MediaFmt
  deriving DecidableEq, Repr

/-- One entry of the `genres` list: `g.get("description")`. -/
structure Genre where
  description : Option String
  deriving DecidableEq, Repr

/-- The `data` object of a successful details response; only the fields the
source reads.  `priceFinal` stands for `price_overview.final_formatted`
(absent `price_overview` collapses to `none` exactly as `.get(…, {}).get(…)`
does). -/
structure GameData where
  name : Option String
  header_image : Option String
  short_description : Option String
  genres : List Genre
  priceFinal : Option String
  is_free : Bool
  movies : Option (List Movie)
  deriving DecidableEq, Repr

/-- `j[str(appid)]`: the per-app entry, with its `success` flag (truthiness of
`.get("success")`) and the `data` object (`none` models a missing `"data"`
key, whose subscript raises `KeyError` inside the `try`). -/
structure AppEntry where
  success : Bool
  data : Option GameData
  deriving DecidableEq, Repr

/-- Outcome of `requests.get(...)` + `raise_for_status()` + `.json()` for the
details endpoint: an exception (network, timeout, HTTP error, JSON parse), or
a parsed body in which `str(appid)` is present or not. -/
inductive FetchResult where
  | exc
  | body (entry : Option AppEntry)
  deriving DecidableEq, Repr

/-! ## JSON shape of the featured-categories response (`fetch_top_sellers`) -/

/-- An item object inside a category value: the source reads
`item.get("id") or item.get("appid")`. -/
structure CatItem where
  id : Option Int
  appid : Option Int
  deriving DecidableEq, Repr

/-- One value of the categories JSON object: a list of item objects, a dict
whose `"items"` key is a list of item objects (`none` when absent or not a
list), or any other shape, which the source skips. -/
inductive CatVal where
  | listVal (xs : List CatItem)
  | dictVal (items : Option (List CatItem))
  | otherVal
  deriving DecidableEq, Repr

/-- Outcome of fetching the categories endpoint: an exception, or the ordered
values of the parsed JSON object (`j.items()` iteration order). -/
inductive CatResp where
  | exc
  | body (vals : List CatVal)
  deriving DecidableEq, Repr

/-- Outcome of fetching the YouTube results page: an exception, or raw HTML. -/
inductive ScrapeResult where
  | exc
  | html (text : String)
  deriving DecidableEq, Repr

/-- The oracle environment: all outbound HTTP behaviour the app observes. -/
structure Env where
  details : Int → FetchResult
  yt : String → ScrapeResult
  categories : CatResp

/-! ## YouTube fallback resolver (`search_youtube_trailer`) -/

/-- Character class of the regex `[A-Za-z0-9_-]`. -/
def idChar (c : Char) : Bool :=
  ('A' ≤ c && c ≤ 'Z') || ('a' ≤ c && c ≤ 'z') || ('0' ≤ c && c ≤ '9') ||
    c == '_' || c == '-'

/-- Does `pat` occur at the head of `cs`? -/
def startsWithChars : List Char → List Char → Bool
  | [], _ => true
  | _ :: _, [] => false
  | p :: ps, c :: cs => p == c && startsWithChars ps cs

/-- The literal part of the regex `watch\?v=`. -/
def watchMarker : List Char := "watch?v=".data

/-- Try to match `watch\?v=([A-Za-z0-9_-]{11})` at the head of `cs`. -/
def matchHere (cs : List Char) : Option String :=
  if startsWithChars watchMarker cs then
    let vid := (cs.drop watchMarker.length).take 11
    if vid.length == 11 && vid.all idChar then some ⟨vid⟩ else none
  else none

/-- `re.search(r"watch\?v=([A-Za-z0-9_-]{11})", text)`: first position where
the pattern matches, returning the captured 11-character id. -/
def findWatchId : List Char → Option String
  | [] => none
  | c :: cs =>
    match matchHere (c :: cs) with
    | some v => some v
    | none => findWatchId cs

/-- `search_youtube_trailer(game_name)`: builds the query, fetches the
results page, extracts the first embedded video id, returns the embed URL;
`none` on any exception or when the regex finds no match. -/
def search_youtube_trailer (env : Env) (game_name : Option String) : Option String :=
  let q := pyStr game_name ++ " official trailer"
  match env.yt q with
  | .exc => none
  | .html text =>
    match findWatchId text.data with
    | some vid => some ("https://www.youtube.com/embed/" ++ vid)
    | none => none

/-! ## Steam details client + enrichment (`get_steam_game`) -/

/-- The enriched display record `get_steam_game` returns on success. -/
structure EnrichedItem where
  appid : Int
  name : Option String
  short_description : String
  header_image : Option String
  genres : List (Option String)
  price : String
  store_link : String
  trailer_url : Option String
  deriving DecidableEq, Repr

/-- The native-trailer selection of `get_steam_game`: examines only the first
entry of `movies`, trying `webm["max"] or webm["480"]`, then, when that is
falsy, `mp4["max"] or mp4["480"]`.  The raw value (possibly a falsy `""`)
is returned; the caller tests truthiness before using it. -/
def nativeTrailer (movies : List Movie) : Option String :=
  match movies with
  | [] => none
  | first :: _ =>
    let webm := first.webm.getD ⟨none, none⟩
    let t := pyOrS webm.maxUrl webm.url480
    if pyTruthyS t then t
    else
      let mp4 := first.mp4.getD ⟨none, none⟩
      pyOrS mp4.maxUrl mp4.url480

/-- `get_steam_game(appid, lang)`: fetches the details endpoint; on success
builds the enriched record, resolving the trailer natively first and via the
YouTube fallback second; returns `none` on any exception, missing key,
non-truthy success flag, or missing data object. -/
def get_steam_game (env : Env) (appid : Int) : Option EnrichedItem :=
  match env.details appid with
  | .exc => none
  | .body none => none
  | .body (some entry) =>
    if entry.success then
      match entry.data with
      | none => none
      | some d =>
        let short := (pyOrS d.short_description (some "")).getD ""
        let price :=
          match pyOrS d.priceFinal none with
          | some s => s
          | none => if d.is_free then "Free" else "—"
        let native := nativeTrailer (d.movies.getD [])
        let trailer :=
          if pyTruthyS native then native
          else search_youtube_trailer env d.name
        some
          { appid := appid
            name := d.name
            short_description := short
            header_image := d.header_image
            genres := d.genres.map Genre.description
            price := price
            store_link := "https://store.steampowered.com/app/" ++ toString appid
            trailer_url := trailer }
    else none

/-! ## Top sellers (`fetch_top_sellers`) -/

/-- `item.get("id") or item.get("appid")`, kept only when truthy
(`if appid:`); the subsequent `int(appid)` is the identity on JSON ints. -/
def collectItem (it : CatItem) : Option Int :=
  let v := pyOrI it.id it.appid
  if pyTruthyI v then v else none

/-- The ids one category value contributes to `sellers`.  A JSON list
contributes only when non-empty with a dict first element; a dict
contributes via its `"items"` list when that key holds a list. -/
def valIds : CatVal → List Int
  | .listVal [] => []
  | .listVal (x :: xs) => (x :: xs).filterMap collectItem
  | .dictVal (some xs) => xs.filterMap collectItem
  | .dictVal none => []
  | .otherVal => []

/-- The dedup-and-truncate loop of `fetch_top_sellers`: walk `sellers`,
append first occurrences to `out`, and break as soon as `len(out) >= limit`
(tested after a possible append). -/
def dedupLoop (limit : Nat) : List Int → List Int → List Int
  | [], out => out
  | a :: rest, out =>
    let out' := if a ∈ out then out else out ++ [a]
    if limit ≤ out'.length then out' else dedupLoop limit rest out'

/-- `fetch_top_sellers(limit)`: flattens the category values into `sellers`
in discovery order, removes duplicates keeping first occurrences, truncates
via the loop's break, and returns `[]` on any exception. -/
def fetch_top_sellers (env : Env) (limit : Nat) : List Int :=
  match env.categories with
  | .exc => []
  | .body vals =>
    let sellers := vals.flatMap valIds
    dedupLoop limit sellers []

/-! ## Persistence store -/

/-- A `Favourite` row (auto id and `added_at` timestamp omitted: no claim
reads them; insertion order of the list models rowid order). -/
structure Fav where
  appid : Int
  name : String
  image : Option String
  deriving DecidableEq, Repr

/-- A `Review` row (auto id and `created_at` omitted as for `Fav`). -/
structure Rev where
  appid : Int
  rating : Int
  text : String
  deriving DecidableEq, Repr

/-- The two tables of the store. -/
structure Store where
  favs : List Fav
  reviews : List Rev
  deriving DecidableEq, Repr

/-- `add_favourite_db(appid, name, image)` with an integer appid (the
`int(appid)` conversions already applied): no-op returning `false` when a
row with that appid exists, else insert and return `true`. -/
def add_favourite_db (favs : List Fav) (appid : Int) (name : String)
    (image : Option String) : List Fav × Bool :=
  if favs.any (fun r => r.appid == appid) then (favs, false)
  else (favs ++ [⟨appid, name, image⟩], true)

/-- `remove_favourite_db(appid)` with an integer appid: `false` when no row
matches, else delete the first matching row and return `true`. -/
def remove_favourite_db (favs : List Fav) (appid : Int) : List Fav × Bool :=
  match favs.find? (fun r => r.appid == appid) with
  | none => (favs, false)
  | some _ => (favs.eraseP (fun r => r.appid == appid), true)

/-- `add_review_db(appid, rating, text)` with the `int(...)` conversions
already applied: always inserts, trimming the text, and returns `true`. -/
def add_review_db (reviews : List Rev) (appid rating : Int) (text : String) :
    List Rev × Bool :=
  (reviews ++ [⟨appid, rating, pyStrip text⟩], true)

/-! ## Route handlers (the parts the claims are about) -/

/-- What a handler sends back to the browser. -/
inductive Page where
  | redirectWarn (msg : String)
  | redirectInfo (msg : String)
  | redirectSuccess (msg : String)
  deriving DecidableEq, Repr

/-- `add_review_route(appid)`: reads the `rating` and `text` form fields.
`if not rating or not text.strip()` warns and redirects — but when `rating`
is truthy and `text` is absent, `text.strip()` is `None.strip()` and the
handler raises `AttributeError`.  Otherwise `add_review_db(appid, rating,
text)` runs `int(rating)`, which raises `ValueError` on a non-numeric
rating; else the review is inserted. -/
def add_review_route (st : Store) (appid : Int) (rating text : Option String) :
    PyResult (Page × Store) :=
  if !pyTruthyS rating then
    .ok (.redirectWarn "Please provide both a rating and a review.", st)
  else
    match text with
    | none => .raised
    | some t =>
      if pyStrip t == "" then
        .ok (.redirectWarn "Please provide both a rating and a review.", st)
      else
        match pyInt (rating.getD "") with
        | none => .raised
        | some n =>
          .ok (.redirectSuccess "Review submitted!",
            { st with reviews := (add_review_db st.reviews appid n t).1 })

/-- `favourites_add`: reads `appid`, `name`, `image` form fields; warns when
`appid` or `name` is falsy, else calls `add_favourite_db(appid, name, image)`
whose `int(appid)` raises on a non-numeric string. -/
def favourites_add (st : Store) (appid name image : Option String) :
    PyResult (Page × Store) :=
  if !pyTruthyS appid || !pyTruthyS name then
    .ok (.redirectWarn "Missing game details.", st)
  else
    match pyInt (appid.getD "") with
    | none => .raised
    | some n =>
      let res := add_favourite_db st.favs n (name.getD "") image
      .ok (.redirectInfo (if res.2 then "Added to favourites." else "Already in favourites."),
        { st with favs := res.1 })

/-- `favourites_remove`: reads the `appid` form field; warns when falsy, else
calls `remove_favourite_db(appid)` whose `int(appid)` raises on a
non-numeric string. -/
def favourites_remove (st : Store) (appid : Option String) :
    PyResult (Page × Store) :=
  if !pyTruthyS appid then
    .ok (.redirectWarn "No app specified.", st)
  else
    match pyInt (appid.getD "") with
    | none => .raised
    | some n =>
      let res := remove_favourite_db st.favs n
      .ok (.redirectInfo (if res.2 then "Removed from favourites." else "Not in favourites."),
        { st with favs := res.1 })

/-- The homepage feed of `index()`:
`[get_steam_game(aid) for aid in top_ids if get_steam_game(aid)]` (the two
calls agree since the environment is an oracle). -/
def index_games (env : Env) : List EnrichedItem :=
  let top_ids := fetch_top_sellers env 9
  (top_ids.filter (fun aid => (get_steam_game env aid).isSome)).filterMap
    (fun aid => get_steam_game env aid)

/-! ## Store operation sequences (for the uniqueness invariant) -/

/-- One data-layer operation on the store. -/
inductive StoreOp where
  | addFav (appid : Int) (name : String) (image : Option String)
  | removeFav (appid : Int)
  | addRev (appid rating : Int) (text : String)
  deriving DecidableEq, Repr

/-- Apply one operation to the store (the boolean result is dropped). -/
def applyOp (st : Store) : StoreOp → Store
  | .addFav appid name image => { st with favs := (add_favourite_db st.favs appid name image).1 }
  | .removeFav appid => { st with favs := (remove_favourite_db st.favs appid).1 }
  | .addRev appid rating text => { st with reviews := (add_review_db st.reviews appid rating text).1 }

/-- Apply a sequence of operations left to right. -/
def applyOps (st : Store) (ops : List StoreOp) : Store :=
  ops.foldl applyOp st

/-- Each externalId appears in at most one favourite row. -/
def FavUnique (favs : List Fav) : Prop :=
  (favs.map Fav.appid).Nodup

/-! ## Helper lemmas: favourites -/

theorem any_appid_eq_true {favs : List Fav} {appid : Int} :
    favs.any (fun r => r.appid == appid) = true ↔ ∃ r ∈ favs, r.appid = appid := by
  simp [List.any_eq_true]

theorem applyOp_preserves_unique (st : Store) (op : StoreOp) (h : FavUnique st.favs) :
    FavUnique (applyOp st op).favs := by
  cases op with
  | addFav a n i =>
    by_cases hm : st.favs.any (fun r => r.appid == a) = true
    · simpa [applyOp, add_favourite_db, hm] using h
    · have hnot : ∀ r ∈ st.favs, r.appid ≠ a := by
        intro r hr hra
        exact hm (any_appid_eq_true.mpr ⟨r, hr, hra⟩)
      have : FavUnique (st.favs ++ [⟨a, n, i⟩]) := by
        unfold FavUnique at h ⊢
        rw [List.map_append]
        refine List.Nodup.append h (by simp) ?_
        intro x hx hx'
        simp only [List.map_cons, List.map_nil, List.mem_singleton] at hx'
        obtain ⟨r, hr, hra⟩ := List.mem_map.mp hx
        exact hnot r hr (by rw [hra, hx'])
      simpa [applyOp, add_favourite_db, hm] using this
  | removeFav a =>
    have hsub : (applyOp st (.removeFav a)).favs.Sublist st.favs := by
      simp only [applyOp, remove_favourite_db]
      cases st.favs.find? (fun r => r.appid == a) with
      | none => simp
      | some r => simpa using List.eraseP_sublist st.favs
    exact List.Nodup.sublist (hsub.map Fav.appid) h
  | addRev a rt t =>
    simpa [applyOp] using h

/-! ## Helper lemmas: top sellers -/

/-- Spec-side first-seen deduplication: fold the source list left to right,
appending each id on its first occurrence. -/
def firstSeen (acc : List Int) : List Int → List Int
  | [] => acc
  | a :: rest => firstSeen (if a ∈ acc then acc else acc ++ [a]) rest

theorem firstSeen_is_append (l : List Int) :
    ∀ acc : List Int, ∃ t, firstSeen acc l = acc ++ t := by
  induction l with
  | nil => exact fun acc => ⟨[], by simp [firstSeen]⟩
  | cons a rest ih =>
    intro acc
    by_cases hm : a ∈ acc
    · obtain ⟨t, ht⟩ := ih acc
      exact ⟨t, by simp [firstSeen, hm, ht]⟩
    · obtain ⟨t, ht⟩ := ih (acc ++ [a])
      exact ⟨[a] ++ t, by simp [firstSeen, hm, ht]⟩

theorem firstSeen_nodup (l : List Int) :
    ∀ acc : List Int, acc.Nodup → (firstSeen acc l).Nodup := by
  induction l with
  | nil => exact fun acc h => h
  | cons a rest ih =>
    intro acc h
    by_cases hm : a ∈ acc
    · simpa [firstSeen, hm] using ih acc h
    · have : (acc ++ [a]).Nodup := by
        refine List.Nodup.append h (by simp) ?_
        intro x hx hx'
        simp only [List.mem_singleton] at hx'
        exact hm (hx' ▸ hx)
      simpa [firstSeen, hm] using ih (acc ++ [a]) this

theorem dedupLoop_eq_firstSeen (limit : Nat) (l : List Int) :
    ∀ out : List Int, out.length < limit →
      dedupLoop limit l out = (firstSeen out l).take limit := by
  induction l with
  | nil =>
    intro out hlen
    simp [dedupLoop, firstSeen, List.take_of_length_le (Nat.le_of_lt hlen)]
  | cons a rest ih =>
    intro out hlen
    by_cases hm : a ∈ out
    · have hbreak : ¬ limit ≤ out.length := Nat.not_le_of_lt hlen
      simp only [dedupLoop, firstSeen, hm, if_true, if_neg hbreak]
      exact ih out hlen
    · have hlen' : (out ++ [a]).length ≤ limit := by
        simpa using Nat.succ_le_of_lt hlen
      by_cases hstop : limit ≤ (out ++ [a]).length
      · have hexact : (out ++ [a]).length = limit := Nat.le_antisymm hlen' hstop
        obtain ⟨t, ht⟩ := firstSeen_is_append rest (out ++ [a])
        simp only [dedupLoop, firstSeen, hm, if_false, if_pos hstop, ht]
        rw [← hexact, List.take_left]
      · have hlt : (out ++ [a]).length < limit := Nat.lt_of_not_le hstop
        simp only [dedupLoop, firstSeen, hm, if_false, if_neg hstop]
        exact ih (out ++ [a]) hlt

theorem fetch_top_sellers_eq (env : Env) (limit : Nat) (vals : List CatVal)
    (hc : env.categories = .body vals) (hl : 1 ≤ limit) :
    fetch_top_sellers env limit = (firstSeen [] (vals.flatMap valIds)).take limit := by
  simp only [fetch_top_sellers, hc]
  exact dedupLoop_eq_firstSeen limit _ [] hl

theorem fetch_top_sellers_len (env : Env) (limit : Nat) (hl : 1 ≤ limit) :
    (fetch_top_sellers env limit).length ≤ limit := by
  cases hc : env.categories with
  | exc => simp [fetch_top_sellers, hc]
  | body vals =>
    rw [fetch_top_sellers_eq env limit vals hc hl]
    simp

theorem fetch_top_sellers_nodup (env : Env) (limit : Nat) (hl : 1 ≤ limit) :
    (fetch_top_sellers env limit).Nodup := by
  cases hc : env.categories with
  | exc => simp [fetch_top_sellers, hc]
  | body vals =>
    rw [fetch_top_sellers_eq env limit vals hc hl]
    exact List.Nodup.sublist (List.take_sublist _ _)
      (firstSeen_nodup _ [] List.nodup_nil)

/-! ## Helper lemmas: enrichment -/

theorem get_steam_game_success (env : Env) (appid : Int) (entry : AppEntry)
    (d : GameData) (hd : env.details appid = .body (some entry))
    (hs : entry.success = true) (hdata : entry.data = some d) :
    get_steam_game env appid = some
      { appid := appid
        name := d.name
        short_description := (pyOrS d.short_description (some "")).getD ""
        header_image := d.header_image
        genres := d.genres.map Genre.description
        price :=
          match pyOrS d.priceFinal none with
          | some s => s
          | none => if d.is_free then "Free" else "—"
        store_link := "https://store.steampowered.com/app/" ++ toString appid
        trailer_url :=
          if pyTruthyS (nativeTrailer (d.movies.getD [])) then
            nativeTrailer (d.movies.getD [])
          else search_youtube_trailer env d.name } := by
  simp only [get_steam_game, hd, hs, hdata, if_true]

theorem get_steam_game_appid (env : Env) (appid : Int) (it : EnrichedItem)
    (h : get_steam_game env appid = some it) : it.appid = appid := by
  cases hd : env.details appid with
  | exc => simp [get_steam_game, hd] at h
  | body o =>
    cases o with
    | none => simp [get_steam_game, hd] at h
    | some entry =>
      by_cases hs : entry.success = true
      · cases hdata : entry.data with
        | none => simp [get_steam_game, hd, hs, hdata] at h
        | some d =>
          rw [get_steam_game_success env appid entry d hd hs hdata] at h
          simp only [Option.some.injEq] at h
          rw [← h]
      · simp [get_steam_game, hd, hs] at h

theorem get_steam_game_yt_indep (envD : Int → FetchResult)
    (yt yt' : String → ScrapeResult) (cat : CatResp) (appid : Int)
    (entry : AppEntry) (d : GameData) (hd : envD appid = .body (some entry))
    (hs : entry.success = true) (hdata : entry.data = some d)
    (ht : pyTruthyS (nativeTrailer (d.movies.getD [])) = true) :
    get_steam_game ⟨envD, yt, cat⟩ appid = get_steam_game ⟨envD, yt', cat⟩ appid := by
  rw [get_steam_game_success ⟨envD, yt, cat⟩ appid entry d hd hs hdata,
    get_steam_game_success ⟨envD, yt', cat⟩ appid entry d hd hs hdata]
  simp [ht]

theorem matchHere_spec (cs : List Char) (v : String) (h : matchHere cs = some v) :
    v.length = 11 ∧ v.data.all idChar = true := by
  unfold matchHere at h
  by_cases hsw : startsWithChars watchMarker cs = true
  · rw [if_pos hsw] at h
    by_cases hcond :
        (((cs.drop watchMarker.length).take 11).length == 11
          && ((cs.drop watchMarker.length).take 11).all idChar) = true
    · rw [if_pos hcond] at h
      simp only [Bool.and_eq_true, beq_iff_eq] at hcond
      simp only [Option.some.injEq] at h
      rw [← h]
      exact ⟨hcond.1, hcond.2⟩
    · rw [if_neg hcond] at h; exact Option.noConfusion h
  · rw [if_neg hsw] at h; exact Option.noConfusion h

theorem findWatchId_spec (cs : List Char) (v : String) (h : findWatchId cs = some v) :
    v.length = 11 ∧ v.data.all idChar = true := by
  induction cs with
  | nil => exact Option.noConfusion h
  | cons c rest ih =>
    unfold findWatchId at h
    cases hm : matchHere (c :: rest) with
    | some v' =>
      rw [hm] at h
      simp only [Option.some.injEq] at h
      exact h ▸ matchHere_spec (c :: rest) v' hm
    | none => rw [hm] at h; exact ih h

theorem search_youtube_trailer_spec (env : Env) (nm : Option String) (r : String)
    (h : search_youtube_trailer env nm = some r) :
    ∃ vid, r = "https://www.youtube.com/embed/" ++ vid
      ∧ vid.length = 11 ∧ vid.data.all idChar = true := by
  cases hy : env.yt (pyStr nm ++ " official trailer") with
  | exc => simp [search_youtube_trailer, hy] at h
  | html t =>
    simp only [search_youtube_trailer, hy] at h
    cases hf : findWatchId t.data with
    | none => simp [hf] at h
    | some vid =>
      simp only [hf, Option.some.injEq] at h
      obtain ⟨h1, h2⟩ := findWatchId_spec t.data vid hf
      exact ⟨vid, h.symm, h1, h2⟩

/-- The first truthy value of a list of optional strings (spec-side helper). -/
def firstTruthy : List (Option String) → Option String
  | [] => none
  | a :: rest => if pyTruthyS a then a else firstTruthy rest

/-- Spec-side rendering of claim C2's words for a single movie entry: the
first trailer url found among its media in the preference order
webm-max, webm-480, mp4-max, mp4-480 (empty strings are not urls). -/
def specSelectFirst (m : Movie) : Option String :=
  firstTruthy [m.webm.bind MediaFmt.maxUrl, m.webm.bind MediaFmt.url480,
    m.mp4.bind MediaFmt.maxUrl, m.mp4.bind MediaFmt.url480]

/-- Spec-side rendering of claim C2's words "a url exists somewhere in the
movie media": some movie entry carries it in one of the four fields. -/
def urlInMovies (movies : List Movie) (u : String) : Prop :=
  ∃ m ∈ movies,
    m.webm.bind MediaFmt.maxUrl = some u ∨ m.webm.bind MediaFmt.url480 = some u
      ∨ m.mp4.bind MediaFmt.maxUrl = some u ∨ m.mp4.bind MediaFmt.url480 = some u

theorem pyOr_chain_vs_firstTruthy (a b c d : Option String) :
    (pyTruthyS (if pyTruthyS (pyOrS a b) then pyOrS a b else pyOrS c d) = true
      ∧ (if pyTruthyS (pyOrS a b) then pyOrS a b else pyOrS c d)
          = firstTruthy [a, b, c, d])
    ∨ (pyTruthyS (if pyTruthyS (pyOrS a b) then pyOrS a b else pyOrS c d) = false
      ∧ firstTruthy [a, b, c, d] = none) := by
  by_cases ha : pyTruthyS a <;> by_cases hb : pyTruthyS b <;>
    by_cases hc : pyTruthyS c <;> by_cases hd : pyTruthyS d <;>
      simp [pyOrS, firstTruthy, ha, hb, hc, hd]

theorem getD_maxUrl (wo : Option MediaFmt) :
    (wo.getD ⟨none, none⟩).maxUrl = wo.bind MediaFmt.maxUrl := by
  cases wo <;> rfl

theorem getD_url480 (wo : Option MediaFmt) :
    (wo.getD ⟨none, none⟩).url480 = wo.bind MediaFmt.url480 := by
  cases wo <;> rfl

theorem nativeTrailer_vs_spec (first : Movie) (rest : List Movie) :
    (pyTruthyS (nativeTrailer (first :: rest)) = true
      ∧ nativeTrailer (first :: rest) = specSelectFirst first)
    ∨ (pyTruthyS (nativeTrailer (first :: rest)) = false
      ∧ specSelectFirst first = none) := by
  have h := pyOr_chain_vs_firstTruthy (first.webm.bind MediaFmt.maxUrl)
    (first.webm.bind MediaFmt.url480) (first.mp4.bind MediaFmt.maxUrl)
    (first.mp4.bind MediaFmt.url480)
  simpa only [nativeTrailer, specSelectFirst, getD_maxUrl, getD_url480] using h

/-! ## Helper lemmas: homepage feed -/

theorem index_games_map_appid (env : Env) (ids : List Int) :
    (((ids.filter (fun a => (get_steam_game env a).isSome)).filterMap
        (fun a => get_steam_game env a)).map EnrichedItem.appid)
      = ids.filter (fun a => (get_steam_game env a).isSome) := by
  induction ids with
  | nil => simp
  | cons a rest ih =>
    by_cases hs : (get_steam_game env a).isSome = true
    · obtain ⟨it, hit⟩ := Option.isSome_iff_exists.mp hs
      simp only [List.filter_cons, hs, if_true, List.filterMap_cons, hit,
        Option.isSome_some, List.map_cons]
      rw [get_steam_game_appid env a it hit, ih]
    · simp only [List.filter_cons, hs]
      simpa using ih

/-! ## Concrete scenario environments -/

/-- Details payload of the spec scenario: one movie with `webm.max`. -/
def dataA : GameData :=
  { name := some "Counter-Strike", header_image := some "https://img/hdr.jpg"
    short_description := some "desc", genres := [], priceFinal := none
    is_free := true, movies := some [⟨some ⟨some "a.webm", none⟩, none⟩] }

/-- Details oracle serving `dataA` for every id. -/
def detailsA : Int → FetchResult := fun _ => .body (some ⟨true, some dataA⟩)

/-- Environment serving `dataA` for every id, with a given scrape oracle. -/
def envA (g : String → ScrapeResult) : Env := ⟨detailsA, g, .exc⟩

/-- Scrape oracle that always raises. -/
def ytDead : String → ScrapeResult := fun _ => .exc

/-- Details payload of the no-`movies` scenario. -/
def dataB : GameData := { dataA with movies := none }

/-- Details oracle serving `dataB` for every id. -/
def detailsB : Int → FetchResult := fun _ => .body (some ⟨true, some dataB⟩)

/-- Scrape oracle whose results page embeds the video id `abc12345678`. -/
def ytB : String → ScrapeResult := fun _ => .html "watch?v=abc12345678"

/-- Details payload whose trailer url sits only in the second movie entry. -/
def dataC : GameData :=
  { dataA with movies := some [⟨none, none⟩, ⟨some ⟨some "b.webm", none⟩, none⟩] }

/-- Environment serving `dataC`, with a failing scrape oracle. -/
def envC : Env :=
  ⟨fun _ => .body (some ⟨true, some dataC⟩), fun _ => .exc, .exc⟩

/-- Environment where every outbound call raises. -/
def envDead : Env := ⟨fun _ => .exc, fun _ => .exc, .exc⟩

/-- Categories response holding a single item with id 5. -/
def envZ : Env :=
  ⟨fun _ => .exc, fun _ => .exc, .body [.listVal [⟨some 5, none⟩]]⟩

/-- Categories response holding items 1 and 2 in one list. -/
def envT : Env :=
  ⟨fun _ => .exc, fun _ => .exc, .body [.listVal [⟨some 1, none⟩, ⟨some 2, none⟩]]⟩

/-! ## The claims -/

/-- Claim C1: for every externalId whose details fetch succeeds, the enriched
`trailer_url` follows the fallback chain — the native trailer when the native
selection yields one, otherwise the result of the YouTube fallback resolver
invoked with the item's name; a non-`none` fallback result is an embed URL
built from an 11-character `[A-Za-z0-9_-]` id; when a native trailer exists
the result does not depend on the scrape oracle, i.e. the fallback resolver
is never invoked. -/
theorem trailer_fallback_chain (envD : Int → FetchResult)
    (yt yt' : String → ScrapeResult) (cat : CatResp) (appid : Int)
    (entry : AppEntry) (d : GameData) (hd : envD appid = .body (some entry))
    (hs : entry.success = true) (hdata : entry.data = some d) :
    (∃ it, get_steam_game ⟨envD, yt, cat⟩ appid = some it
        ∧ it.trailer_url
            = (if pyTruthyS (nativeTrailer (d.movies.getD [])) then
                nativeTrailer (d.movies.getD [])
              else search_youtube_trailer ⟨envD, yt, cat⟩ d.name))
    ∧ (pyTruthyS (nativeTrailer (d.movies.getD [])) = true →
        get_steam_game ⟨envD, yt, cat⟩ appid = get_steam_game ⟨envD, yt', cat⟩ appid)
    ∧ (∀ nm r, search_youtube_trailer ⟨envD, yt, cat⟩ nm = some r →
        ∃ vid, r = "https://www.youtube.com/embed/" ++ vid
          ∧ vid.length = 11 ∧ vid.data.all idChar = true) := by
  refine ⟨⟨_, get_steam_game_success ⟨envD, yt, cat⟩ appid entry d hd hs hdata, rfl⟩,
    fun ht => get_steam_game_yt_indep envD yt yt' cat appid entry d hd hs hdata ht,
    fun nm r h => search_youtube_trailer_spec ⟨envD, yt, cat⟩ nm r h⟩

theorem trailer_fallback_chain_witness :
    (∃ it, get_steam_game ⟨detailsB, ytB, .exc⟩ 10 = some it
        ∧ it.trailer_url
            = (if pyTruthyS (nativeTrailer (dataB.movies.getD [])) then
                nativeTrailer (dataB.movies.getD [])
              else search_youtube_trailer ⟨detailsB, ytB, .exc⟩ dataB.name))
    ∧ (pyTruthyS (nativeTrailer (dataB.movies.getD [])) = true →
        get_steam_game ⟨detailsB, ytB, .exc⟩ 10 = get_steam_game ⟨detailsB, ytB, .exc⟩ 10)
    ∧ (∀ nm r, search_youtube_trailer ⟨detailsB, ytB, .exc⟩ nm = some r →
        ∃ vid, r = "https://www.youtube.com/embed/" ++ vid
          ∧ vid.length = 11 ∧ vid.data.all idChar = true) :=
  trailer_fallback_chain detailsB ytB ytB .exc 10 ⟨true, some dataB⟩ dataB rfl rfl rfl

/-- Claim C2 counterexample: the code inspects only the first entry of
`movies`, so with a trailer url present only in the second entry the native
selection is `none` — although the url exists in the movie media — and the
enriched `trailer_url` ends up `none` (failing fallback), refuting "is None
when no such url exists anywhere in the movie media". -/
theorem native_trailer_misses_second_movie :
    urlInMovies (dataC.movies.getD []) "b.webm"
    ∧ nativeTrailer (dataC.movies.getD []) = none
    ∧ (get_steam_game envC 10).bind EnrichedItem.trailer_url = none := by
  refine ⟨⟨⟨some ⟨some "b.webm", none⟩, none⟩, ?_, ?_⟩, rfl, rfl⟩
  · simp [dataC, dataA]
  · simp

/-- Claim C2 as amended: the native trailer is selected from the *first*
movie entry only, in the preference order webm-max, webm-480, mp4-max,
mp4-480 (falsy values skipped); when the first entry yields none the
YouTube fallback is used, and in the spec scenario (a single movie with
`webm.max = "a.webm"`) the enriched `trailer_url` is `"a.webm"` and the
result does not depend on the scrape oracle. -/
theorem native_trailer_first_movie_only (envD : Int → FetchResult)
    (yt : String → ScrapeResult) (cat : CatResp) (appid : Int)
    (entry : AppEntry) (d : GameData) (first : Movie) (rest : List Movie)
    (hd : envD appid = .body (some entry)) (hs : entry.success = true)
    (hdata : entry.data = some d) (hm : d.movies = some (first :: rest)) :
    (∃ it, get_steam_game ⟨envD, yt, cat⟩ appid = some it
        ∧ it.trailer_url
            = (match specSelectFirst first with
              | some u => some u
              | none => search_youtube_trailer ⟨envD, yt, cat⟩ d.name))
    ∧ (∀ yt' : String → ScrapeResult, (specSelectFirst first).isSome = true →
        get_steam_game ⟨envD, yt, cat⟩ appid = get_steam_game ⟨envD, yt', cat⟩ appid)
    ∧ (∀ g : String → ScrapeResult, ∃ it, get_steam_game (envA g) 10 = some it
        ∧ it.trailer_url = some "a.webm")
    ∧ (∀ g g' : String → ScrapeResult,
        get_steam_game (envA g) 10 = get_steam_game (envA g') 10) := by
  have hml : d.movies.getD [] = first :: rest := by rw [hm]; rfl
  have hvs := nativeTrailer_vs_spec first rest
  have hsg := get_steam_game_success ⟨envD, yt, cat⟩ appid entry d hd hs hdata
  refine ⟨⟨_, hsg, ?_⟩, ?_, fun g => ⟨_, rfl, rfl⟩, fun g g' => rfl⟩
  · show (if pyTruthyS (nativeTrailer (d.movies.getD [])) then
        nativeTrailer (d.movies.getD [])
      else search_youtube_trailer ⟨envD, yt, cat⟩ d.name) = _
    rw [hml]
    cases hvs with
    | inl h =>
      obtain ⟨ht, heq⟩ := h
      cases hspec : specSelectFirst first with
      | none => rw [heq, hspec] at ht; exact absurd ht (by simp [pyTruthyS])
      | some u =>
        rw [heq, hspec] at ht
        simp [heq, hspec, ht]
    | inr h =>
      obtain ⟨ht, hnone⟩ := h
      simp [ht, hnone]
  · intro yt' hiso
    cases hvs with
    | inl h =>
      refine get_steam_game_yt_indep envD yt yt' cat appid entry d hd hs hdata ?_
      rw [hml]
      exact h.1
    | inr h =>
      rw [h.2] at hiso
      exact absurd hiso (by simp)

theorem native_trailer_first_movie_only_witness :
    (∃ it, get_steam_game ⟨detailsA, ytDead, CatResp.exc⟩ 10 = some it
        ∧ it.trailer_url
            = (match specSelectFirst ⟨some ⟨some "a.webm", none⟩, none⟩ with
              | some u => some u
              | none => search_youtube_trailer ⟨detailsA, ytDead, CatResp.exc⟩ dataA.name))
    ∧ (∀ yt' : String → ScrapeResult,
        (specSelectFirst ⟨some ⟨some "a.webm", none⟩, none⟩).isSome = true →
        get_steam_game ⟨detailsA, ytDead, CatResp.exc⟩ 10
          = get_steam_game ⟨detailsA, yt', CatResp.exc⟩ 10)
    ∧ (∀ g : String → ScrapeResult, ∃ it, get_steam_game (envA g) 10 = some it
        ∧ it.trailer_url = some "a.webm")
    ∧ (∀ g g' : String → ScrapeResult,
        get_steam_game (envA g) 10 = get_steam_game (envA g') 10) :=
  native_trailer_first_movie_only detailsA ytDead CatResp.exc 10 ⟨true, some dataA⟩
    dataA ⟨some ⟨some "a.webm", none⟩, none⟩ [] rfl rfl rfl rfl

/-- Claim C3 is right and the code is wrong: blank/missing `rating` and blank
`text` do produce the warning redirect without inserting, but a missing
`text` field with a truthy `rating` makes the handler evaluate
`None.strip()` and raise `AttributeError` instead of redirecting. -/
theorem review_missing_text_raises :
    add_review_route ⟨[], []⟩ 10 none (some "good")
      = .ok (.redirectWarn "Please provide both a rating and a review.", ⟨[], []⟩)
    ∧ add_review_route ⟨[], []⟩ 10 (some "") (some "good")
      = .ok (.redirectWarn "Please provide both a rating and a review.", ⟨[], []⟩)
    ∧ add_review_route ⟨[], []⟩ 10 (some "5") (some "   ")
      = .ok (.redirectWarn "Please provide both a rating and a review.", ⟨[], []⟩)
    ∧ add_review_route ⟨[], []⟩ 10 (some "5") none = .raised :=
  ⟨rfl, rfl, rfl, rfl⟩

/-- Claim C4: `get_steam_game` returns `none` — and never raises — whenever
the outbound call raises (network/timeout/JSON error), the id key is absent,
or the success flag is not set; it returns a non-`none` enriched item only
when the response carries a truthy success flag and a data object. -/
theorem get_steam_game_error_handling (env : Env) (appid : Int) :
    (env.details appid = .exc → get_steam_game env appid = none)
    ∧ (env.details appid = .body none → get_steam_game env appid = none)
    ∧ (∀ entry, env.details appid = .body (some entry) → entry.success = false →
        get_steam_game env appid = none)
    ∧ (∀ it, get_steam_game env appid = some it →
        ∃ entry d, env.details appid = .body (some entry) ∧ entry.success = true
          ∧ entry.data = some d) := by
  refine ⟨fun h => by simp [get_steam_game, h],
    fun h => by simp [get_steam_game, h],
    fun entry hd hs => by simp [get_steam_game, hd, hs], ?_⟩
  intro it h
  cases hd : env.details appid with
  | exc => simp [get_steam_game, hd] at h
  | body o =>
    cases o with
    | none => simp [get_steam_game, hd] at h
    | some entry =>
      by_cases hs : entry.success = true
      · cases hdata : entry.data with
        | none => simp [get_steam_game, hd, hs, hdata] at h
        | some d => exact ⟨entry, d, rfl, hs, hdata⟩
      · simp [get_steam_game, hd, hs] at h

theorem get_steam_game_error_handling_witness :
    get_steam_game envDead 10 = none :=
  (get_steam_game_error_handling envDead 10).1 rfl

/-- Claim C5 counterexample: the loop tests `len(out) >= limit` only *after*
appending, so with `limit = 0` and a response carrying one id the function
returns a sequence of length 1, refuting "length at most limit". -/
theorem top_sellers_limit_zero_overflow :
    fetch_top_sellers envZ 0 = [5] ∧ ¬ (fetch_top_sellers envZ 0).length ≤ 0 := by
  exact ⟨rfl, by decide⟩

/-- Claim C5 as amended: for every `limit ≥ 1` (the bound check runs after an
append, so `limit = 0` can still emit one id), `fetch_top_sellers` returns
the ids collected from every list-of-items value and every
object-with-items value — tolerating both the `id` and `appid` field
names — deduplicated to first occurrences in discovery order (`firstSeen`)
and truncated to `limit`; its length is at most `limit`, it has no
duplicates, and any failure yields the empty sequence. -/
theorem top_sellers_spec (env : Env) (limit : Nat) (hl : 1 ≤ limit) :
    (env.categories = .exc → fetch_top_sellers env limit = [])
    ∧ (∀ vals, env.categories = .body vals →
        fetch_top_sellers env limit
          = (firstSeen [] (vals.flatMap valIds)).take limit)
    ∧ (fetch_top_sellers env limit).length ≤ limit
    ∧ (fetch_top_sellers env limit).Nodup := by
  exact ⟨fun h => by simp [fetch_top_sellers, h],
    fun vals hc => fetch_top_sellers_eq env limit vals hc hl,
    fetch_top_sellers_len env limit hl, fetch_top_sellers_nodup env limit hl⟩

theorem top_sellers_spec_witness :
    (envT.categories = .exc → fetch_top_sellers envT 1 = [])
    ∧ (∀ vals, envT.categories = .body vals →
        fetch_top_sellers envT 1
          = (firstSeen [] (vals.flatMap valIds)).take 1)
    ∧ (fetch_top_sellers envT 1).length ≤ 1
    ∧ (fetch_top_sellers envT 1).Nodup :=
  top_sellers_spec envT 1 (by decide)

/-- Claim C6: starting from a favourites table whose externalIds are
pairwise distinct, any sequence of add-favourite, remove-favourite and
add-review operations preserves that uniqueness. -/
theorem store_ops_preserve_unique (st : Store) (ops : List StoreOp)
    (h : FavUnique st.favs) : FavUnique (applyOps st ops).favs := by
  induction ops generalizing st with
  | nil => exact h
  | cons op rest ih => exact ih (applyOp st op) (applyOp_preserves_unique st op h)

theorem store_ops_preserve_unique_witness :
    FavUnique (applyOps ⟨[], []⟩
      [.addFav 1 "a" none, .addFav 1 "b" none, .addRev 1 5 "ok", .removeFav 1]).favs :=
  store_ops_preserve_unique ⟨[], []⟩
    [.addFav 1 "a" none, .addFav 1 "b" none, .addRev 1 5 "ok", .removeFav 1]
    (by simp [FavUnique])

/-- Claim C7: `add_favourite_db` is a no-op returning `false` when a row with
the externalId exists, and otherwise appends exactly one row and returns
`true`; consequently, on a fresh id, a first call returns `true`, a second
call returns `false` leaving the table unchanged, and exactly one row with
that id is stored. -/
theorem add_favourite_spec (favs : List Fav) (appid : Int) (nm nm' : String)
    (im im' : Option String) :
    ((∃ r ∈ favs, r.appid = appid) →
      add_favourite_db favs appid nm im = (favs, false))
    ∧ ((∀ r ∈ favs, r.appid ≠ appid) →
      add_favourite_db favs appid nm im = (favs ++ [⟨appid, nm, im⟩], true)
      ∧ add_favourite_db (favs ++ [⟨appid, nm, im⟩]) appid nm' im'
          = (favs ++ [⟨appid, nm, im⟩], false)
      ∧ (favs ++ [(⟨appid, nm, im⟩ : Fav)]).countP (fun r => r.appid == appid) = 1) := by
  constructor
  · intro hex
    simp [add_favourite_db, any_appid_eq_true.mpr hex]
  · intro hall
    have hnot : ¬ favs.any (fun r => r.appid == appid) = true := by
      intro h
      obtain ⟨r, hr, hra⟩ := any_appid_eq_true.mp h
      exact hall r hr hra
    have hany : favs.any (fun r => r.appid == appid) = false :=
      Bool.eq_false_iff.mpr hnot
    have hcount : favs.countP (fun r => r.appid == appid) = 0 := by
      refine List.countP_eq_zero.mpr ?_
      intro r hr
      simp [hall r hr]
    refine ⟨by simp [add_favourite_db, hany], ?_, ?_⟩
    · have hany' : (favs ++ [(⟨appid, nm, im⟩ : Fav)]).any
          (fun r => r.appid == appid) = true := by
        simp [List.any_append]
      simp [add_favourite_db, hany']
    · rw [List.countP_append, hcount]
      simp

theorem add_favourite_spec_witness :
    add_favourite_db [] 10 "CS" none = ([⟨10, "CS", none⟩], true)
    ∧ add_favourite_db [⟨10, "CS", none⟩] 10 "CS2" none
        = ([⟨10, "CS", none⟩], false)
    ∧ ([(⟨10, "CS", none⟩ : Fav)]).countP (fun r => r.appid == 10) = 1 :=
  (add_favourite_spec [] 10 "CS" "CS2" none none).2 (by simp)

/-- Claim C8: `remove_favourite_db` returns `false` and leaves the table
unchanged when no row matches, and otherwise returns `true` deleting exactly
the first matching row (the table splits as `l1 ++ row :: l2` with no match
in `l1` and the result is `l1 ++ l2`). -/
theorem remove_favourite_spec (favs : List Fav) (appid : Int) :
    ((∀ r ∈ favs, r.appid ≠ appid) →
      remove_favourite_db favs appid = (favs, false))
    ∧ ((∃ r ∈ favs, r.appid = appid) →
      (remove_favourite_db favs appid).2 = true
      ∧ ∃ row l1 l2, favs = l1 ++ row :: l2 ∧ row.appid = appid
          ∧ (∀ r ∈ l1, r.appid ≠ appid)
          ∧ (remove_favourite_db favs appid).1 = l1 ++ l2) := by
  constructor
  · intro hall
    have hf : favs.find? (fun r => r.appid == appid) = none := by
      refine List.find?_eq_none.mpr ?_
      intro r hr
      simp [hall r hr]
    simp [remove_favourite_db, hf]
  · rintro ⟨r0, hr0, hra0⟩
    cases hf : favs.find? (fun r => r.appid == appid) with
    | none =>
      exact absurd (List.find?_eq_none.mp hf r0 hr0) (by simp [hra0])
    | some r1 =>
      obtain ⟨row, l1, l2, hnl1, hprow, hfavs, herase⟩ :=
        List.exists_of_eraseP hr0 (p := fun r => r.appid == appid) (by simp [hra0])
      refine ⟨by simp [remove_favourite_db, hf], row, l1, l2, hfavs, by simpa using hprow,
        fun r hr => by simpa using hnl1 r hr, by simp [remove_favourite_db, hf, herase]⟩

theorem remove_favourite_spec_witness :
    (remove_favourite_db [⟨10, "CS", none⟩] 10).2 = true
    ∧ ∃ row l1 l2, [(⟨10, "CS", none⟩ : Fav)] = l1 ++ row :: l2 ∧ row.appid = 10
        ∧ (∀ r ∈ l1, r.appid ≠ 10)
        ∧ (remove_favourite_db [⟨10, "CS", none⟩] 10).1 = l1 ++ l2 :=
  (remove_favourite_spec [⟨10, "CS", none⟩] 10).2 ⟨⟨10, "CS", none⟩, by simp, rfl⟩

/-- Claim C9: the homepage feed holds at most 9 items, its externalIds are
exactly the fetched top-seller ids whose enrichment succeeded in upstream
first-seen discovery order (so one id's failure only drops that id), those
ids are pairwise distinct, and every listed item is a successful (non-`none`)
enrichment of its id. -/
theorem homepage_feed_spec (env : Env) :
    (index_games env).length ≤ 9
    ∧ (index_games env).map EnrichedItem.appid
        = (fetch_top_sellers env 9).filter (fun a => (get_steam_game env a).isSome)
    ∧ ((index_games env).map EnrichedItem.appid).Nodup
    ∧ ∀ it ∈ index_games env, get_steam_game env it.appid = some it := by
  have hmap : (index_games env).map EnrichedItem.appid
      = (fetch_top_sellers env 9).filter (fun a => (get_steam_game env a).isSome) := by
    simp only [index_games]
    exact index_games_map_appid env (fetch_top_sellers env 9)
  refine ⟨?_, hmap, ?_, ?_⟩
  · have hlen : (index_games env).length
        = ((index_games env).map EnrichedItem.appid).length := by simp
    rw [hlen, hmap]
    exact Nat.le_trans (List.length_filter_le _ _)
      (fetch_top_sellers_len env 9 (by decide))
  · rw [hmap]
    exact List.Nodup.filter _ (fetch_top_sellers_nodup env 9 (by decide))
  · intro it hit
    simp only [index_games, List.mem_filterMap] at hit
    obtain ⟨a, ha, hsome⟩ := hit
    rw [get_steam_game_appid env a it hsome]
    exact hsome

theorem homepage_feed_spec_witness :
    (index_games envZ).length ≤ 9
    ∧ (index_games envZ).map EnrichedItem.appid
        = (fetch_top_sellers envZ 9).filter (fun a => (get_steam_game envZ a).isSome)
    ∧ ((index_games envZ).map EnrichedItem.appid).Nodup
    ∧ ∀ it ∈ index_games envZ, get_steam_game envZ it.appid = some it :=
  homepage_feed_spec envZ

/-- Claim C10 (implicit): the favourites routes validate only that the form
fields are present, then hand the raw `appid` string to `int(...)`; a
non-numeric string such as `"abc"` passes that validation and makes both
operations raise instead of returning a boolean, while any `appid` string
that parses as an integer yields a normal (boolean-carrying) response. -/
theorem favourite_routes_int_parse (st : Store) (s : String) (n : Int)
    (hp : pyInt s = some n) :
    favourites_add st (some "abc") (some "CS") none = .raised
    ∧ favourites_remove st (some "abc") = .raised
    ∧ (∃ page st', favourites_add st (some s) (some "CS") none = .ok (page, st'))
    ∧ (∃ page st', favourites_remove st (some s) = .ok (page, st')) := by
  have hs : s ≠ "" := by
    intro h
    rw [h] at hp
    exact Option.noConfusion hp
  refine ⟨rfl, rfl, ?_, ?_⟩
  · exact ⟨.redirectInfo (if (add_favourite_db st.favs n "CS" none).2 then
        "Added to favourites." else "Already in favourites."),
      { st with favs := (add_favourite_db st.favs n "CS" none).1 },
      by simp [favourites_add, pyTruthyS, hs, hp]⟩
  · exact ⟨.redirectInfo (if (remove_favourite_db st.favs n).2 then
        "Removed from favourites." else "Not in favourites."),
      { st with favs := (remove_favourite_db st.favs n).1 },
      by simp [favourites_remove, pyTruthyS, hs, hp]⟩

theorem favourite_routes_int_parse_witness :
    favourites_add ⟨[], []⟩ (some "abc") (some "CS") none = .raised
    ∧ favourites_remove ⟨[], []⟩ (some "abc") = .raised
    ∧ (∃ page st', favourites_add ⟨[], []⟩ (some "10") (some "CS") none
        = .ok (page, st'))
    ∧ (∃ page st', favourites_remove ⟨[], []⟩ (some "10") = .ok (page, st')) :=
  favourite_routes_int_parse ⟨[], []⟩ "10" 10 rfl

end App
